import Mathlib

/-!
Verification development for the Doctor Input portal
(`src/streamlit_app.py`).

The Python program is shallowly embedded: the remote spreadsheet is a
list of worksheets threaded through each operation, a pandas `DataFrame`
cell is `Option String` (`none` models a missing value, `NaN`/`None`)
before `fillna`, and plain `String` afterwards, and fallible remote
calls are modelled with `Except`, with injected fault parameters
standing for the exceptions the remote client may raise.
-/

namespace DoctorInput

/-- The configured column names for the main data entry table
(`COLUMNS`, line 20). -/
def COLUMNS : List String := ["col1", "col2", "col3", "col4"]

/-- `DEFAULT_ROWS` (line 22). -/
def DEFAULT_ROWS : Nat := 10

/-- One entry of the static credential table (`VALID_USERS` values). -/
structure UserEntry where
  password : String
  role : String
  deriving DecidableEq, Repr

/-- The static credential table `VALID_USERS` (lines 14-17). -/
def VALID_USERS : List (String × UserEntry) :=
  [("doctor", ⟨"password123", "doctor"⟩), ("admin", ⟨"doctor", "admin"⟩)]

/-- A remote worksheet: title, creation capacity, and its cell grid. -/
structure Worksheet where
  title : String
  capRows : Nat
  capCols : Nat
  data : List (List String)
  deriving DecidableEq, Repr

/-- The remote spreadsheet: the ordered collection of its worksheets. -/
structure Spreadsheet where
  sheets : List Worksheet
  deriving DecidableEq, Repr

/-- `sh.worksheet(name)`: find a worksheet by title (titles are unique
in a Google spreadsheet; we model lookup as first match). -/
def findWs (sp : Spreadsheet) (name : String) : Option Worksheet :=
  sp.sheets.find? (fun w => w.title == name)

/-- `sh.add_worksheet(title, rows, cols)`: a fresh empty worksheet is
appended to the collection. -/
def addWorksheet (sp : Spreadsheet) (title : String) (capRows capCols : Nat) : Spreadsheet :=
  ⟨sp.sheets ++ [⟨title, capRows, capCols, []⟩]⟩

/-- Apply `f` to the first worksheet with the given title. -/
def updateFirstWs (name : String) (f : Worksheet → Worksheet) : List Worksheet → List Worksheet
  | [] => []
  | w :: ws => if w.title == name then f w :: ws else w :: updateFirstWs name f ws

/-- `ws.append_row(row)`: append one row to the named worksheet's grid. -/
def wsAppendRow (sp : Spreadsheet) (name : String) (row : List String) : Spreadsheet :=
  ⟨updateFirstWs name (fun w => { w with data := w.data ++ [row] }) sp.sheets⟩

/-- `ws.clear()`. -/
def wsClear (sp : Spreadsheet) (name : String) : Spreadsheet :=
  ⟨updateFirstWs name (fun w => { w with data := [] }) sp.sheets⟩

/-- `ws.update(values=vals, range_name="A1")` on a cleared sheet:
the grid becomes exactly `vals`. -/
def wsUpdate (sp : Spreadsheet) (name : String) (vals : List (List String)) : Spreadsheet :=
  ⟨updateFirstWs name (fun w => { w with data := vals }) sp.sheets⟩

/-- The grid of the named worksheet, if it exists. -/
def wsData (sp : Spreadsheet) (name : String) : Option (List (List String)) :=
  (findWs sp name).map (fun w => w.data)

/-- `get_today_sheet` (lines 48-60): get or create the worksheet
`data_YYYY-MM-DD`; on creation capacity is rows=2000, cols=len(COLUMNS)
and the header row `COLUMNS` is appended.  `dateStr` stands for
`now.strftime(percent-Y-m-d)` in the fixed timezone.  Returns the
worksheet handle (its title) and the possibly-extended spreadsheet. -/
def get_today_sheet (sp : Spreadsheet) (dateStr : String) : String × Spreadsheet :=
  match findWs sp ("data_" ++ dateStr) with
  | some _ => ("data_" ++ dateStr, sp)
  | none =>
    ("data_" ++ dateStr,
      wsAppendRow (addWorksheet sp ("data_" ++ dateStr) 2000 COLUMNS.length)
        ("data_" ++ dateStr) COLUMNS)

/-- `get_mapping_sheet_for_today` (lines 95-109): get or create
`mapping_YYYY-MM-DD`; on creation capacity is rows=2000, cols=50 and no
header row is written. -/
def get_mapping_sheet_for_today (sp : Spreadsheet) (dateStr : String) : String × Spreadsheet :=
  match findWs sp ("mapping_" ++ dateStr) with
  | some _ => ("mapping_" ++ dateStr, sp)
  | none => ("mapping_" ++ dateStr, addWorksheet sp ("mapping_" ++ dateStr) 2000 50)

/-- A pandas row of the entry grid: `none` is a missing value
(`NaN`/`None`), `some s` a string cell. -/
abbrev PRow := List (Option String)

/-- A row every cell of which is a missing value: exactly the rows
`df.dropna(how="all")` removes. -/
def rowAllMissing (r : PRow) : Bool := r.all (fun c => c.isNone)

/-- `df.dropna(how="all")` (line 65). -/
def dropnaAll (g : List PRow) : List PRow :=
  g.filter (fun r => !(rowAllMissing r))

/-- `fillna("")` on one row (`.astype(str)` is the identity on the
string cells of this model). -/
def fillRow (r : PRow) : List String := r.map (fun c => c.getD "")

/-- A row every cell of which is blank in the sense of the spec:
missing or the empty string. -/
def rowAllBlank (r : PRow) : Bool := r.all (fun c => c.getD "" == "")

/-- `append_rows` (lines 63-73): drop the all-missing rows; if nothing
remains return 0, else fill missing cells with `""` and append each
remaining row, in order, to the named worksheet; return how many. -/
def append_rows (sp : Spreadsheet) (wsName : String) (df : List PRow) : Spreadsheet × Nat :=
  let df_clean := dropnaAll df
  if df_clean.isEmpty then (sp, 0)
  else
    let rows := df_clean.map fillRow
    (rows.foldl (fun s r => wsAppendRow s wsName r) sp, df_clean.length)

/-! ### Date parsing (`datetime.strptime(date_str, "%Y-%m-%d")`, line 86)

CPython's `strptime` matches `%Y` against exactly four digits, `%m`
and `%d` against one or two digits (rejecting `0` and `00`), requires
the whole string to be consumed, and then constructing the `datetime`
rejects year 0 and a day beyond the month's length. -/

/-- Decimal value of a digit list. -/
def digitsVal (l : List Char) : Nat :=
  l.foldl (fun a c => a * 10 + (c.toNat - '0'.toNat)) 0

/-- Split a character list at every occurrence of `c` (the same
splitting `s.split("-")`-style matching performs on the date string;
defined structurally so that it evaluates inside the kernel). -/
def splitOnChar (c : Char) : List Char → List (List Char)
  | [] => [[]]
  | x :: xs =>
    if x = c then [] :: splitOnChar c xs
    else
      match splitOnChar c xs with
      | [] => [[x]]
      | h :: t => (x :: h) :: t

/-- A field of exactly `n` ASCII digits. -/
def parseExactDigits (l : List Char) (n : Nat) : Option Nat :=
  if l.length = n ∧ l.all Char.isDigit then some (digitsVal l) else none

/-- A field of one or two ASCII digits. -/
def parseUpTo2Digits (l : List Char) : Option Nat :=
  if l ≠ [] ∧ l.length ≤ 2 ∧ l.all Char.isDigit then some (digitsVal l)
  else none

/-- Gregorian leap year, as `datetime` uses it. -/
def isLeap (y : Nat) : Bool := (y % 4 == 0 && y % 100 != 0) || y % 400 == 0

/-- Length of a month, as `datetime` validates it. -/
def daysInMonth (y m : Nat) : Nat :=
  if m = 2 then (if isLeap y then 29 else 28)
  else if m = 4 ∨ m = 6 ∨ m = 9 ∨ m = 11 then 30 else 31

/-- A parsed calendar date (year, month, day). -/
abbrev DateT := Nat × Nat × Nat

/-- `datetime.strptime(s, "%Y-%m-%d")`, returning `none` where Python
raises `ValueError`. -/
def parseDate (s : String) : Option DateT :=
  match splitOnChar '-' s.data with
  | [ys, ms, ds] =>
    match parseExactDigits ys 4, parseUpTo2Digits ms, parseUpTo2Digits ds with
    | some y, some m, some d =>
      if 1 ≤ y ∧ 1 ≤ m ∧ m ≤ 12 ∧ 1 ≤ d ∧ d ≤ daysInMonth y m then some (y, m, d)
      else none
    | _, _, _ => none
  | _ => none

/-- Lexicographic order on parsed dates: exactly how Python compares
two `datetime` values with equal time-of-day. -/
def dle (a b : DateT) : Prop :=
  a.1 < b.1 ∨ (a.1 = b.1 ∧ (a.2.1 < b.2.1 ∨ (a.2.1 = b.2.1 ∧ a.2.2 ≤ b.2.2)))

instance : DecidableRel dle := fun a b =>
  inferInstanceAs (Decidable (a.1 < b.1 ∨
    (a.1 = b.1 ∧ (a.2.1 < b.2.1 ∨ (a.2.1 = b.2.1 ∧ a.2.2 ≤ b.2.2)))))

/-- `s.replace("data_", "", 1)` (line 84) on char lists: remove the
first occurrence of `pat`. -/
def dropFirstOcc (pat : List Char) : List Char → List Char
  | [] => []
  | c :: rest =>
    if pat.isPrefixOf (c :: rest) then (c :: rest).drop pat.length
    else c :: dropFirstOcc pat rest

/-- `ws.title.replace("data_", "", 1)` (line 84). -/
def stripDataTag (title : String) : String :=
  String.mk (dropFirstOcc "data_".data title.data)

/-- `ws.title.startswith("data_")` (line 83), via the structural
`List.isPrefixOf` so that it evaluates inside the kernel. -/
def startsWithData (s : String) : Bool := "data_".data.isPrefixOf s.data

/-- The loop body of `get_date_sheets` (lines 82-89): keep a worksheet
whose title starts with `data_` and whose remainder parses as a date,
paired with that parsed date and the date string. -/
def dateTripleOf (ws : Worksheet) : Option (DateT × String × Worksheet) :=
  if startsWithData ws.title then
    (parseDate (stripDataTag ws.title)).map (fun d => (d, stripDataTag ws.title, ws))
  else none

/-- The `date_sheets` list before sorting (lines 81-89). -/
def dateTriples (sp : Spreadsheet) : List (DateT × String × Worksheet) :=
  sp.sheets.filterMap dateTripleOf

/-- The ordering used by `date_sheets.sort(key=lambda x: x[0],
reverse=True)`: a stable descending sort on the parsed date. -/
def descDate (x y : DateT × String × Worksheet) : Prop := dle y.1 x.1

instance : DecidableRel descDate := fun x y =>
  inferInstanceAs (Decidable (dle y.1 x.1))

instance : IsTotal (DateT × String × Worksheet) descDate :=
  ⟨fun x y => by unfold descDate dle; omega⟩

instance : IsTrans (DateT × String × Worksheet) descDate :=
  ⟨fun x y z hxy hyz => by unfold descDate dle at *; omega⟩

/-- `get_date_sheets` (lines 76-92): the `(date_str, worksheet)` pairs
whose title carries a parseable date, sorted by descending date. -/
def get_date_sheets (sp : Spreadsheet) : List (String × Worksheet) :=
  (List.insertionSort descDate (dateTriples sp)).map (fun x => (x.2.1, x.2.2))

/-- The predicate of the history-listing claim: a worksheet is listed
iff its title starts with `data_` and the remainder parses as a date. -/
def keepWs (ws : Worksheet) : Option (String × Worksheet) :=
  if startsWithData ws.title then
    match parseDate (stripDataTag ws.title) with
    | some _ => some (stripDataTag ws.title, ws)
    | none => none
  else none

/-- Boolean form of "the parsed date of `t` is at most that of `s`"
(both must parse). -/
def parsedDescB (s t : String) : Bool :=
  match parseDate s, parseDate t with
  | some ds, some dt => decide (dle dt ds)
  | _, _ => false

/-- Rendering of a selected date's rows in `history_tab`
(lines 200-207): `none` when there is no data row, else the first row
as header and the rest as data. -/
def history_view (rows : List (List String)) : Option (List String × List (List String)) :=
  if rows.isEmpty || rows.length ≤ 1 then none
  else some (rows.headD [], rows.tail)

/-- `history_tab` for a selected date string (lines 195-207): find the
worksheet listed under that date, render its rows; the spreadsheet is
returned untouched (the tab only reads). -/
def history_tab (sp : Spreadsheet) (selected : String) : Option (List String × List (List String)) × Spreadsheet :=
  (match (get_date_sheets sp).find? (fun p => p.1 == selected) with
   | some p => history_view p.2.data
   | none => none, sp)

/-! ### Excel reference template and the specialty-mapping editor -/

/-- A pandas DataFrame after `fillna("")`/`.astype(str)`: string column
labels and string cells. -/
structure DF where
  header : List String
  rows : List (List String)
  deriving DecidableEq, Repr

/-- A DataFrame as `pd.read_excel(EXCEL_FILE, dtype=str)` yields it:
cells may still be missing. -/
structure RawDF where
  header : List String
  rows : List (List (Option String))
  deriving DecidableEq, Repr

/-- `load_reference_sheet` (lines 114-129).  `raw` is the outcome of
`pd.read_excel`: an exception or a raw DataFrame.  A failed read or an
empty frame (no rows or no columns) yields `none`; otherwise missing
cells become empty strings. -/
def load_reference_sheet (raw : Except String RawDF) : Option DF :=
  match raw with
  | .error _ => none
  | .ok df =>
    if df.rows.isEmpty || df.header.isEmpty then none
    else some ⟨df.header, df.rows.map fillRow⟩

/-- `build_mapping_template` (lines 132-143): when the frame has more
than one row and more than two columns, blank every cell at row ≥ 1,
column ≥ 2; otherwise return the frame unchanged. -/
def build_mapping_template (df : DF) : DF :=
  if 1 < df.rows.length ∧ 2 < df.header.length then
    ⟨df.header,
     df.rows.enum.map (fun p =>
       if p.1 = 0 then p.2
       else p.2.enum.map (fun q => if q.1 < 2 then q.2 else ""))⟩
  else df

/-- `full_df.iloc[:, 0:2] = df_ref.iloc[:, 0:2]` on one row: positions
0 and 1 are overwritten with the reference row's values. -/
def setFrozenCols (refRow row : List String) : List String :=
  (row.set 0 (refRow.getD 0 "")).set 1 (refRow.getD 1 "")

/-- The frozen-cell enforcement of the mapping save (lines 376-380):
first row 0 is overwritten with the reference's row 0, then columns
0-1 of every row are overwritten with the reference's. -/
def enforce_frozen (refRows rows : List (List String)) : List (List String) :=
  List.zipWith setFrozenCols refRows (rows.set 0 (refRows.getD 0 []))

/-- The per-cell cleaning of the save loop (lines 389-396): a cell that
prints as `nan` is replaced by the empty string (cells are strings
here, so the `None` branch cannot fire). -/
def cleanCell (v : String) : String := if v == "nan" then "" else v

/-- Header cleaning (line 383). -/
def cleanHeaderCell (h : String) : String := if h == "nan" then "" else h

/-- The data rows the mapping save persists (below the header):
frozen-cell enforcement followed by per-cell cleaning. -/
def mapping_saved_rows (refRows editedFilled : List (List String)) : List (List String) :=
  (enforce_frozen refRows editedFilled).map (fun r => r.map cleanCell)

/-- The full payload the mapping save writes at `A1` (line 401):
cleaned header row, then the reconciled data rows.  `edited` is the
grid as the editor returns it (missing cells possible). -/
def mapping_save_payload (ref : DF) (edited : List PRow) : List (List String) :=
  (ref.header.map cleanHeaderCell) :: mapping_saved_rows ref.rows (edited.map fillRow)

/-! ### Session state and user actions -/

/-- The session keys the program uses (`st.session_state`). -/
structure Session where
  logged_in : Bool
  user_role : Option String
  editor_key : String
  mapping_clear_after_submit : Bool
  deriving DecidableEq, Repr

/-- `VALID_USERS.get(username)` (line 154). -/
def lookupUser (u : String) : Option UserEntry :=
  (VALID_USERS.find? (fun p => p.1 == u)).map (fun p => p.2)

/-- `login_page` button handler (lines 153-160): on a credential match
set the logged-in flag and the role; otherwise leave the session alone
and show the inline error (the returned Bool). -/
def login_page (username password : String) (s : Session) : Session × Bool :=
  match lookupUser username with
  | some user =>
    if user.password == password then
      ({ s with logged_in := true, user_role := some user.role }, false)
    else (s, true)
  | none => (s, true)

/-- The tabs `main` builds for a role (lines 444-453). -/
def visibleTabs (role : String) : List String :=
  if role == "admin" then ["New Entry", "Previous Entries"] else ["New Entry"]

/-- The user-visible outcome of a new-entry submit. -/
inductive EntryMsg
  | warnNoRows
  | savedOk (n : Nat)
  | errMsg (s : String)
  deriving DecidableEq, Repr

/-- The `append_row` loop of `append_rows` with injected remote
faults: `faults i` is the exception text the `i`-th `append_row` call
raises, if any.  Rows appended before the fault stay written. -/
def appendLoop (faults : Nat → Option String) : Nat → Spreadsheet → String → List (List String) → Except (String × Spreadsheet) Spreadsheet
  | _, sp, _, [] => .ok sp
  | i, sp, name, r :: rest =>
    match faults i with
    | some e => .error (e, sp)
    | none => appendLoop faults (i + 1) (wsAppendRow sp name r) name rest

/-- `append_rows` with injected faults on the remote append calls;
with no faults it agrees with `append_rows`. -/
def append_rows_exc (faults : Nat → Option String) (sp : Spreadsheet) (wsName : String) (df : List PRow) : Except (String × Spreadsheet) (Spreadsheet × Nat) :=
  if (dropnaAll df).isEmpty then .ok (sp, 0)
  else
    match appendLoop faults 0 sp wsName ((dropnaAll df).map fillRow) with
    | .ok sp1 => .ok (sp1, (dropnaAll df).length)
    | .error p => .error p

/-- A fault function that fails exactly the `k`-th remote call. -/
def singleFault (k : Nat) (e : String) : Nat → Option String :=
  fun j => if j = k then some e else none

/-- The submit handler of `new_entry_tab` (lines 269-280).  `locFault`
injects a locator failure, `faults` per-append failures, `ts` the
timestamp used for the editor-reset key.  The whole remote interaction
sits in one `try`: any fault is caught and surfaced as
`Error: {fault}` with the session untouched; on success with rows the
editor key is reset. -/
def new_entry_submit (locFault : Option String) (faults : Nat → Option String)
    (dateStr ts : String) (edited : List PRow) (sess : Session) (sp : Spreadsheet) :
    Session × Spreadsheet × EntryMsg :=
  match locFault with
  | some e => (sess, sp, .errMsg ("Error: " ++ e))
  | none =>
    match append_rows_exc faults (get_today_sheet sp dateStr).2
        (get_today_sheet sp dateStr).1 edited with
    | .error p => (sess, p.2, .errMsg ("Error: " ++ p.1))
    | .ok q =>
      if q.2 = 0 then (sess, q.1, .warnNoRows)
      else ({ sess with editor_key := "editor_reset_" ++ ts }, q.1, .savedOk q.2)

/-- The user-visible outcome of rendering the mapping section. -/
inductive MappingMsg
  | refUnavailableInfo
  | tooFewColsErr
  | shownNoSubmit
  | savedOk (sheetTitle : String)
  | saveErr (s : String)
  deriving DecidableEq, Repr

/-- The `try` block of the mapping submit (lines 369-401) with
injected faults for the locator, the clear and the bulk update. -/
def mappingSubmitTry (ref : DF) (edited : List PRow) (dateStr : String)
    (locFault clearFault updFault : Option String) (sp : Spreadsheet) :
    Except (String × Spreadsheet) (String × Spreadsheet) :=
  match locFault with
  | some e => .error (e, sp)
  | none =>
    match clearFault with
    | some e => .error (e, (get_mapping_sheet_for_today sp dateStr).2)
    | none =>
      match updFault with
      | some e => .error (e, wsClear (get_mapping_sheet_for_today sp dateStr).2
          (get_mapping_sheet_for_today sp dateStr).1)
      | none =>
        .ok ((get_mapping_sheet_for_today sp dateStr).1,
          wsUpdate
            (wsClear (get_mapping_sheet_for_today sp dateStr).2
              (get_mapping_sheet_for_today sp dateStr).1)
            (get_mapping_sheet_for_today sp dateStr).1
            (mapping_save_payload ref edited))

/-- `mapping_editor_section` (lines 285-414).  `raw` is the Excel read
outcome, `submit` whether the submit button was pressed, `edited` the
grid the editor returns.  The two guard failures return before any
session-state handling or remote call; a caught submit fault surfaces
as `Error saving mapping to Google Sheets: {fault}` with the session
untouched; a successful save sets `mapping_clear_after_submit`. -/
def mapping_editor_section (raw : Except String RawDF) (submit : Bool)
    (edited : List PRow) (dateStr : String)
    (locFault clearFault updFault : Option String)
    (sess : Session) (sp : Spreadsheet) : Session × Spreadsheet × MappingMsg :=
  match load_reference_sheet raw with
  | none => (sess, sp, .refUnavailableInfo)
  | some df_ref =>
    if df_ref.header.length < 3 then (sess, sp, .tooFewColsErr)
    else
      if submit then
        match mappingSubmitTry df_ref edited dateStr locFault clearFault updFault sp with
        | .ok p =>
          ({ (if sess.mapping_clear_after_submit then
              { sess with mapping_clear_after_submit := false }
             else sess) with mapping_clear_after_submit := true }, p.2, .savedOk p.1)
        | .error p =>
          ((if sess.mapping_clear_after_submit then
              { sess with mapping_clear_after_submit := false }
            else sess), p.2, .saveErr ("Error saving mapping to Google Sheets: " ++ p.1))
      else
        ((if sess.mapping_clear_after_submit then
            { sess with mapping_clear_after_submit := false }
          else sess), sp, .shownNoSubmit)

/-! ### Helper lemmas -/

theorem getD_set_self (l : List α) (i : Nat) (a d : α) (h : i < l.length) :
    (l.set i a).getD i d = a := by
  simp [List.getD_eq_getElem?_getD, List.getElem?_set_self h]

theorem getD_set_ne (l : List α) (i j : Nat) (a d : α) (h : i ≠ j) :
    (l.set i a).getD j d = l.getD j d := by
  simp [List.getD_eq_getElem?_getD, List.getElem?_set_ne h]

theorem getD_map_lt (f : α → β) (l : List α) (j : Nat) (d : β) (d' : α) (h : j < l.length) :
    (l.map f).getD j d = f (l.getD j d') := by
  simp [List.getD_eq_getElem?_getD, List.getElem?_map, List.getElem?_eq_getElem h]

theorem getD_zipWith_lt (f : α → β → γ) (as : List α) (bs : List β) (i : Nat)
    (d : γ) (da : α) (db : β) (ha : i < as.length) (hb : i < bs.length) :
    (List.zipWith f as bs).getD i d = f (as.getD i da) (bs.getD i db) := by
  simp [List.getD_eq_getElem?_getD, List.getElem?_zipWith,
    List.getElem?_eq_getElem ha, List.getElem?_eq_getElem hb]

theorem length_setFrozenCols (refRow row : List String) :
    (setFrozenCols refRow row).length = row.length := by
  simp [setFrozenCols]

theorem getD_setFrozenCols (refRow row : List String) (j : Nat) (h2 : 2 ≤ row.length) :
    (setFrozenCols refRow row).getD j "" =
      if j < 2 then refRow.getD j "" else row.getD j "" := by
  unfold setFrozenCols
  match j with
  | 0 =>
    rw [getD_set_ne _ 1 0 _ _ (by omega), getD_set_self _ 0 _ _ (by omega)]
    simp
  | 1 =>
    rw [getD_set_self _ 1 _ _ (by simpa using by omega)]
    simp
  | (k + 2) =>
    rw [getD_set_ne _ 1 (k + 2) _ _ (by omega), getD_set_ne _ 0 (k + 2) _ _ (by omega)]
    simp

theorem find?_updateFirstWs (name : String) (f : Worksheet → Worksheet)
    (hf : ∀ w, (f w).title = w.title) (l : List Worksheet) :
    (updateFirstWs name f l).find? (fun w => w.title == name) =
      (l.find? (fun w => w.title == name)).map f := by
  induction l with
  | nil => rfl
  | cons w ws ih =>
    unfold updateFirstWs
    by_cases hw : (w.title == name) = true
    · rw [if_pos hw]
      have hfw : ((f w).title == name) = true := by rw [hf]; exact hw
      rw [List.find?_cons, List.find?_cons, hfw, hw]
      rfl
    · rw [if_neg hw]
      have hw2 : (w.title == name) = false := by simpa using hw
      rw [List.find?_cons, List.find?_cons, hw2]
      exact ih

theorem findWs_wsAppendRow (sp : Spreadsheet) (name : String) (r : List String)
    (w : Worksheet) (h : findWs sp name = some w) :
    findWs (wsAppendRow sp name r) name = some { w with data := w.data ++ [r] } := by
  unfold findWs wsAppendRow
  rw [find?_updateFirstWs name (fun w => { w with data := w.data ++ [r] }) (fun w0 => rfl)]
  unfold findWs at h
  rw [h]
  rfl

theorem findWs_wsClear (sp : Spreadsheet) (name : String)
    (w : Worksheet) (h : findWs sp name = some w) :
    findWs (wsClear sp name) name = some { w with data := [] } := by
  unfold findWs wsClear
  rw [find?_updateFirstWs name (fun w => { w with data := [] }) (fun w0 => rfl)]
  unfold findWs at h
  rw [h]
  rfl

theorem wsData_wsUpdate_of_found (sp : Spreadsheet) (name : String)
    (vals : List (List String)) (w : Worksheet) (h : findWs sp name = some w) :
    wsData (wsUpdate sp name vals) name = some vals := by
  unfold wsData wsUpdate findWs
  rw [find?_updateFirstWs name (fun w => { w with data := vals }) (fun w0 => rfl)]
  unfold findWs at h
  rw [h]
  rfl

theorem findWs_addWorksheet_self (sp : Spreadsheet) (t : String) (cr cc : Nat)
    (h : findWs sp t = none) :
    findWs (addWorksheet sp t cr cc) t = some ⟨t, cr, cc, []⟩ := by
  unfold findWs addWorksheet
  unfold findWs at h
  rw [List.find?_append, h]
  simp [List.find?]

theorem wsData_foldl_append (name : String) (rows : List (List String)) :
    ∀ (sp : Spreadsheet) (w : Worksheet), findWs sp name = some w →
      wsData (rows.foldl (fun s r => wsAppendRow s name r) sp) name =
        some (w.data ++ rows) := by
  induction rows with
  | nil =>
    intro sp w h
    simp [wsData, h]
  | cons r rest ih =>
    intro sp w h
    rw [List.foldl_cons]
    have h2 := findWs_wsAppendRow sp name r w h
    have := ih (wsAppendRow sp name r) _ h2
    simpa using this

/-! ### Claim C8 -/

/-- Claim C8: the credential store is a static association of username
to password and role whose usernames are distinct, every recognized
role is one of doctor, engineer or admin, and the tab gating grants
doctor and engineer the entry tab only while admin additionally gets
the history tab. -/
theorem C8_credential_store :
    (VALID_USERS.map Prod.fst).Nodup ∧
    (∀ p ∈ VALID_USERS,
      p.2.role = "doctor" ∨ p.2.role = "engineer" ∨ p.2.role = "admin") ∧
    visibleTabs "doctor" = ["New Entry"] ∧
    visibleTabs "engineer" = ["New Entry"] ∧
    visibleTabs "admin" = ["New Entry", "Previous Entries"] := by
  refine ⟨by decide, by decide, rfl, rfl, rfl⟩

/-- Witness for C8 at the first credential entry. -/
theorem C8_witness :
    (⟨"password123", "doctor"⟩ : UserEntry).role = "doctor" ∨
    (⟨"password123", "doctor"⟩ : UserEntry).role = "engineer" ∨
    (⟨"password123", "doctor"⟩ : UserEntry).role = "admin" :=
  C8_credential_store.2.1 ("doctor", ⟨"password123", "doctor"⟩) (by decide)

/-! ### Claim C9 -/

/-- Claim C9: for a reference frame with more than one row and more
than two columns, `build_mapping_template` keeps the header and blanks
exactly the in-range cells at row ≥ 1 and column ≥ 2, leaving row 0
and columns 0-1 at the reference's values; for any frame with at most
one row or at most two columns the frame is returned unchanged. -/
theorem C9_build_mapping_template_cells (df : DF) (i j : Nat) :
    (build_mapping_template df).header = df.header ∧
    ((build_mapping_template df).rows.getD i []).getD j "" =
      (if 1 < df.rows.length ∧ 2 < df.header.length ∧ 1 ≤ i ∧ 2 ≤ j ∧
          i < df.rows.length ∧ j < (df.rows.getD i []).length
       then "" else (df.rows.getD i []).getD j "") ∧
    ((df.rows.length ≤ 1 ∨ df.header.length ≤ 2) → build_mapping_template df = df) := by
  unfold build_mapping_template
  by_cases h : 1 < df.rows.length ∧ 2 < df.header.length
  · rw [if_pos h]
    refine ⟨rfl, ?_, fun hs => by omega⟩
    by_cases hi : i < df.rows.length
    · have hrow : df.rows[i]? = some df.rows[i] := List.getElem?_eq_getElem hi
      have hDi : df.rows.getD i [] = df.rows[i] := by
        simp [List.getD_eq_getElem?_getD, hrow]
      have hL : ((df.rows.enum.map (fun p =>
          if p.1 = 0 then p.2
          else p.2.enum.map (fun q => if q.1 < 2 then q.2 else ""))).getD i []) =
          if i = 0 then df.rows[i]
          else (df.rows[i]).enum.map (fun q => if q.1 < 2 then q.2 else "") := by
        simp [List.getD_eq_getElem?_getD, List.getElem?_map, List.getElem?_enum, hrow]
      rw [hL, hDi]
      by_cases hi0 : i = 0
      · rw [if_pos hi0, if_neg (by omega)]
      · rw [if_neg hi0]
        by_cases hj : j < df.rows[i].length
        · have hcell : df.rows[i][j]? = some (df.rows[i])[j] := List.getElem?_eq_getElem hj
          have hLc : ((df.rows[i]).enum.map
              (fun q => if q.1 < 2 then q.2 else "")).getD j "" =
              if j < 2 then (df.rows[i])[j] else "" := by
            simp [List.getD_eq_getElem?_getD, List.getElem?_map, List.getElem?_enum, hcell]
          rw [hLc]
          by_cases hj2 : j < 2
          · rw [if_pos hj2, if_neg (by omega)]
            simp [List.getD_eq_getElem?_getD, hcell]
          · rw [if_neg hj2, if_pos (by exact ⟨h.1, h.2, by omega, by omega, hi, hj⟩)]
        · have hcell : df.rows[i][j]? = none := List.getElem?_eq_none (by omega)
          have hLc : ((df.rows[i]).enum.map
              (fun q => if q.1 < 2 then q.2 else "")).getD j "" = "" := by
            simp [List.getD_eq_getElem?_getD, List.getElem?_map, List.getElem?_enum, hcell]
          rw [hLc, if_neg (by omega)]
          simp [List.getD_eq_getElem?_getD, hcell]
    · have hrow : df.rows[i]? = none := List.getElem?_eq_none (by omega)
      have hL : ((df.rows.enum.map (fun p =>
          if p.1 = 0 then p.2
          else p.2.enum.map (fun q => if q.1 < 2 then q.2 else ""))).getD i []) = [] := by
        simp [List.getD_eq_getElem?_getD, List.getElem?_map, List.getElem?_enum, hrow]
      have hDi : df.rows.getD i [] = ([] : List String) := by
        simp [List.getD_eq_getElem?_getD, hrow]
      rw [hL, hDi, if_neg (by omega)]
  · rw [if_neg h]
    refine ⟨rfl, ?_, fun hs => rfl⟩
    rw [if_neg (by omega)]

/-- Witness for C9 at concrete frames: a 2x3 frame gets its cell (1,2)
blanked while header, row 0 and columns 0-1 survive, and a 1-row frame
is returned unchanged. -/
theorem C9_witness :
    (build_mapping_template ⟨["h1", "h2", "h3"],
        [["a", "b", "c"], ["d", "e", "f"]]⟩).header = ["h1", "h2", "h3"] ∧
    ((build_mapping_template ⟨["h1", "h2", "h3"],
        [["a", "b", "c"], ["d", "e", "f"]]⟩).rows.getD 1 []).getD 2 "" = "" ∧
    ((build_mapping_template ⟨["h1", "h2", "h3"],
        [["a", "b", "c"], ["d", "e", "f"]]⟩).rows.getD 1 []).getD 0 "" = "d" ∧
    build_mapping_template ⟨["h1", "h2", "h3"], [["a", "b", "c"]]⟩ =
      ⟨["h1", "h2", "h3"], [["a", "b", "c"]]⟩ := by
  refine ⟨(C9_build_mapping_template_cells _ 1 2).1, ?_, ?_, ?_⟩
  · rw [(C9_build_mapping_template_cells ⟨["h1", "h2", "h3"],
      [["a", "b", "c"], ["d", "e", "f"]]⟩ 1 2).2.1]
    decide
  · rw [(C9_build_mapping_template_cells ⟨["h1", "h2", "h3"],
      [["a", "b", "c"], ["d", "e", "f"]]⟩ 1 0).2.1]
    decide
  · exact (C9_build_mapping_template_cells
      ⟨["h1", "h2", "h3"], [["a", "b", "c"]]⟩ 0 0).2.2 (by decide)

/-! ### Claim C7 -/

/-- Claim C7: a login attempt whose username and password match an
entry of the static credential table turns the session logged-in with
that entry's role and shows no error; any other attempt leaves the
session unchanged and shows the inline error.  The admin entry carries
role admin, and that role is the one whose tab set includes both the
entry and the history tab. -/
theorem C7_login (u p : String) (s : Session) :
    (∀ e : UserEntry, lookupUser u = some e → e.password = p →
      login_page u p s =
        ({ s with logged_in := true, user_role := some e.role }, false)) ∧
    (lookupUser u = none → login_page u p s = (s, true)) ∧
    (∀ e : UserEntry, lookupUser u = some e → e.password ≠ p →
      login_page u p s = (s, true)) ∧
    lookupUser "admin" = some ⟨"doctor", "admin"⟩ ∧
    visibleTabs "admin" = ["New Entry", "Previous Entries"] ∧
    visibleTabs "doctor" = ["New Entry"] := by
  refine ⟨?_, ?_, ?_, by decide, rfl, rfl⟩
  · intro e he hp
    unfold login_page
    rw [he]
    simp [hp]
  · intro he
    unfold login_page
    rw [he]
  · intro e he hp
    unfold login_page
    rw [he]
    simp [beq_iff_eq, hp]

/-- Witness for C7: the admin credentials log in with role admin, and
a wrong password leaves the session untouched with the error shown. -/
theorem C7_witness :
    login_page "admin" "doctor" ⟨false, none, "editor_1", false⟩ =
      (⟨true, some "admin", "editor_1", false⟩, false) ∧
    login_page "admin" "wrong" ⟨false, none, "editor_1", false⟩ =
      (⟨false, none, "editor_1", false⟩, true) ∧
    login_page "nobody" "x" ⟨false, none, "editor_1", false⟩ =
      (⟨false, none, "editor_1", false⟩, true) := by
  refine ⟨?_, ?_, ?_⟩
  · exact (C7_login "admin" "doctor" ⟨false, none, "editor_1", false⟩).1
      ⟨"doctor", "admin"⟩ (by decide) rfl
  · exact (C7_login "admin" "wrong" ⟨false, none, "editor_1", false⟩).2.2.1
      ⟨"doctor", "admin"⟩ (by decide) (by decide)
  · exact (C7_login "nobody" "x" ⟨false, none, "editor_1", false⟩).2.1 (by decide)

/-! ### Claim C2 -/

/-- Claim C2 counterexample: a submitted grid whose single row has
every cell blank (each the empty string) is nevertheless appended:
`append_rows` returns count 1 and the remote sheet changes, because
`dropna` only removes missing values, not empty strings. -/
theorem C2_counterexample :
    (∀ r ∈ ([[some "", some "", some "", some ""]] : List PRow), rowAllBlank r = true) ∧
    (append_rows ⟨[⟨"data_2024-01-02", 2000, 4, [["col1", "col2", "col3", "col4"]]⟩]⟩
      "data_2024-01-02" [[some "", some "", some "", some ""]]).2 = 1 ∧
    (append_rows ⟨[⟨"data_2024-01-02", 2000, 4, [["col1", "col2", "col3", "col4"]]⟩]⟩
      "data_2024-01-02" [[some "", some "", some "", some ""]]).1 ≠
      ⟨[⟨"data_2024-01-02", 2000, 4, [["col1", "col2", "col3", "col4"]]⟩]⟩ := by
  refine ⟨by decide, by decide, by decide⟩

/-- Claim C2 (amended): for a submitted grid in which every row
consists solely of missing cells (`None`/`NaN`), `append_rows` returns
count 0 and leaves the spreadsheet untouched; rows of empty strings do
not count as blank for the drop rule. -/
theorem C2_all_missing_rows_no_write (sp : Spreadsheet) (name : String)
    (df : List PRow) (h : ∀ r ∈ df, rowAllMissing r = true) :
    append_rows sp name df = (sp, 0) := by
  unfold append_rows dropnaAll
  have hnil : df.filter (fun r => !(rowAllMissing r)) = [] := by
    rw [List.filter_eq_nil_iff]
    intro a ha
    simp [h a ha]
  rw [hnil]
  rfl

/-- Witness for C2 (amended) at a concrete all-missing grid. -/
theorem C2_witness :
    append_rows ⟨[⟨"data_2024-01-02", 2000, 4, []⟩]⟩ "data_2024-01-02"
      [[none, none, none, none], [none, none, none, none]] =
      (⟨[⟨"data_2024-01-02", 2000, 4, []⟩]⟩, 0) :=
  C2_all_missing_rows_no_write _ _ _ (by decide)

/-! ### Claim C3 -/

/-- Claim C3 counterexample: a grid whose rows are `[some ""]` and
`[none]` contains zero non-blank rows in the claim's sense (a cell
that is the empty string is blank), yet `append_rows` appends one row
and returns 1: the code counts missing-only rows, not blank rows. -/
theorem C3_counterexample :
    (([[some ""], [none]] : List PRow).filter (fun r => !(rowAllBlank r))).length = 0 ∧
    (append_rows ⟨[⟨"data_2024-01-02", 2000, 4, []⟩]⟩ "data_2024-01-02"
      [[some ""], [none]]).2 = 1 ∧
    wsData (append_rows ⟨[⟨"data_2024-01-02", 2000, 4, []⟩]⟩ "data_2024-01-02"
      [[some ""], [none]]).1 "data_2024-01-02" = some [[""]] := by
  refine ⟨by decide, by decide, by decide⟩

/-- Claim C3 (amended): for a submitted grid, `append_rows` appends
exactly the rows that have at least one non-missing cell, in their
original relative order, each with its missing cells rendered as empty
strings, and returns their count. -/
theorem C3_appends_non_missing_rows (sp : Spreadsheet) (name : String)
    (w : Worksheet) (df : List PRow) (h : findWs sp name = some w) :
    (append_rows sp name df).2 = (dropnaAll df).length ∧
    wsData (append_rows sp name df).1 name =
      some (w.data ++ (dropnaAll df).map fillRow) := by
  unfold append_rows
  by_cases he : (dropnaAll df).isEmpty
  · have : dropnaAll df = [] := List.isEmpty_iff.mp he
    rw [this]
    simp [wsData, h]
  · rw [if_neg he]
    exact ⟨rfl, wsData_foldl_append name _ sp w h⟩

/-- Witness for C3 (amended) at a concrete mixed grid: of three rows,
the all-missing one is dropped and the other two are appended in
order. -/
theorem C3_witness :
    (append_rows ⟨[⟨"data_2024-01-02", 2000, 4, [["h"]]⟩]⟩ "data_2024-01-02"
      [[some "a", none], [none, none], [none, some "b"]]).2 =
      (dropnaAll [[some "a", none], [none, none], [none, some "b"]]).length ∧
    wsData (append_rows ⟨[⟨"data_2024-01-02", 2000, 4, [["h"]]⟩]⟩ "data_2024-01-02"
      [[some "a", none], [none, none], [none, some "b"]]).1 "data_2024-01-02" =
      some ([["h"]] ++ (dropnaAll
        [[some "a", none], [none, none], [none, some "b"]]).map fillRow) :=
  C3_appends_non_missing_rows ⟨[⟨"data_2024-01-02", 2000, 4, [["h"]]⟩]⟩
    "data_2024-01-02" ⟨"data_2024-01-02", 2000, 4, [["h"]]⟩ _ (by decide)

/-! ### Claim C4 -/

/-- Claim C4: each locator deterministically targets the worksheet
named `{prefix}{YYYY-MM-DD}`; when that worksheet is absent it is
created with the fixed capacity (2000 rows, and 4 columns for the
data prefix, 50 for the mapping prefix), and only the main-data
locator writes the header row `COLUMNS`; calling a locator again on
the same day returns the same handle and the same spreadsheet
(idempotent creation). -/
theorem C4_sheet_locator (sp : Spreadsheet) (d : String) :
    (get_today_sheet sp d).1 = "data_" ++ d ∧
    get_today_sheet (get_today_sheet sp d).2 d = get_today_sheet sp d ∧
    (findWs sp ("data_" ++ d) = none →
      findWs (get_today_sheet sp d).2 ("data_" ++ d) =
        some ⟨"data_" ++ d, 2000, COLUMNS.length, [COLUMNS]⟩) ∧
    (get_mapping_sheet_for_today sp d).1 = "mapping_" ++ d ∧
    get_mapping_sheet_for_today (get_mapping_sheet_for_today sp d).2 d =
      get_mapping_sheet_for_today sp d ∧
    (findWs sp ("mapping_" ++ d) = none →
      findWs (get_mapping_sheet_for_today sp d).2 ("mapping_" ++ d) =
        some ⟨"mapping_" ++ d, 2000, 50, []⟩) := by
  have hdc : findWs sp ("data_" ++ d) = none →
      findWs (get_today_sheet sp d).2 ("data_" ++ d) =
        some ⟨"data_" ++ d, 2000, COLUMNS.length, [COLUMNS]⟩ := by
    intro h
    unfold get_today_sheet
    rw [h]
    have h1 := findWs_addWorksheet_self sp ("data_" ++ d) 2000 COLUMNS.length h
    have h2 := findWs_wsAppendRow _ ("data_" ++ d) COLUMNS _ h1
    simpa using h2
  have hmc : findWs sp ("mapping_" ++ d) = none →
      findWs (get_mapping_sheet_for_today sp d).2 ("mapping_" ++ d) =
        some ⟨"mapping_" ++ d, 2000, 50, []⟩ := by
    intro h
    unfold get_mapping_sheet_for_today
    rw [h]
    exact findWs_addWorksheet_self sp ("mapping_" ++ d) 2000 50 h
  have hdf : ∀ (sp2 : Spreadsheet) (w : Worksheet),
      findWs sp2 ("data_" ++ d) = some w → get_today_sheet sp2 d = ("data_" ++ d, sp2) := by
    intro sp2 w h
    unfold get_today_sheet
    rw [h]
  have hmf : ∀ (sp2 : Spreadsheet) (w : Worksheet),
      findWs sp2 ("mapping_" ++ d) = some w →
        get_mapping_sheet_for_today sp2 d = ("mapping_" ++ d, sp2) := by
    intro sp2 w h
    unfold get_mapping_sheet_for_today
    rw [h]
  refine ⟨?_, ?_, hdc, ?_, ?_, hmc⟩
  · unfold get_today_sheet
    cases hw : findWs sp ("data_" ++ d) <;> rfl
  · cases hw : findWs sp ("data_" ++ d) with
    | some w =>
      have h1 := hdf sp w hw
      rw [h1]
      show get_today_sheet sp d = ("data_" ++ d, sp)
      exact h1
    | none =>
      have h1 : (get_today_sheet sp d).1 = "data_" ++ d := by
        unfold get_today_sheet
        rw [hw]
      have h3 := hdf (get_today_sheet sp d).2 _ (hdc hw)
      rw [h3, Prod.ext_iff]
      exact ⟨h1.symm, rfl⟩
  · unfold get_mapping_sheet_for_today
    cases hw : findWs sp ("mapping_" ++ d) <;> rfl
  · cases hw : findWs sp ("mapping_" ++ d) with
    | some w =>
      have h1 := hmf sp w hw
      rw [h1]
      show get_mapping_sheet_for_today sp d = ("mapping_" ++ d, sp)
      exact h1
    | none =>
      have h1 : (get_mapping_sheet_for_today sp d).1 = "mapping_" ++ d := by
        unfold get_mapping_sheet_for_today
        rw [hw]
      have h3 := hmf (get_mapping_sheet_for_today sp d).2 _ (hmc hw)
      rw [h3, Prod.ext_iff]
      exact ⟨h1.symm, rfl⟩

/-- Witness for C4 on the empty spreadsheet: both locators create and
then find again the dated sheet, and only the data sheet carries the
header row. -/
theorem C4_witness :
    (get_today_sheet ⟨[]⟩ "2024-01-02").1 = "data_" ++ "2024-01-02" ∧
    get_today_sheet (get_today_sheet ⟨[]⟩ "2024-01-02").2 "2024-01-02" =
      get_today_sheet ⟨[]⟩ "2024-01-02" ∧
    findWs (get_today_sheet ⟨[]⟩ "2024-01-02").2 ("data_" ++ "2024-01-02") =
      some ⟨"data_" ++ "2024-01-02", 2000, COLUMNS.length, [COLUMNS]⟩ ∧
    findWs (get_mapping_sheet_for_today ⟨[]⟩ "2024-01-02").2
        ("mapping_" ++ "2024-01-02") =
      some ⟨"mapping_" ++ "2024-01-02", 2000, 50, []⟩ := by
  refine ⟨(C4_sheet_locator ⟨[]⟩ "2024-01-02").1,
    (C4_sheet_locator ⟨[]⟩ "2024-01-02").2.1,
    (C4_sheet_locator ⟨[]⟩ "2024-01-02").2.2.1 (by decide),
    (C4_sheet_locator ⟨[]⟩ "2024-01-02").2.2.2.2.2 (by decide)⟩

/-! ### Claim C10 -/

/-- Claim C10: when the reference template fails to load (read error
or empty frame) or has fewer than three columns, the mapping section
reports the condition and returns before constructing the editor: the
session and the remote spreadsheet are returned unchanged, whatever
was edited, submitted or faulted. -/
theorem C10_reference_guards (raw : Except String RawDF) (submit : Bool)
    (edited : List PRow) (dateStr : String)
    (locFault clearFault updFault : Option String)
    (sess : Session) (sp : Spreadsheet) :
    (load_reference_sheet raw = none →
      mapping_editor_section raw submit edited dateStr locFault clearFault updFault sess sp =
        (sess, sp, .refUnavailableInfo)) ∧
    (∀ df : DF, load_reference_sheet raw = some df → df.header.length < 3 →
      mapping_editor_section raw submit edited dateStr locFault clearFault updFault sess sp =
        (sess, sp, .tooFewColsErr)) := by
  constructor
  · intro h
    unfold mapping_editor_section
    rw [h]
  · intro df h hc
    unfold mapping_editor_section
    rw [h]
    simp only [if_pos hc]

/-- Witness for C10: a failed Excel read and a two-column frame both
return with the session and spreadsheet untouched. -/
theorem C10_witness :
    mapping_editor_section (.error "read failed") true [[some "x"]] "2024-01-02"
        none none none ⟨true, some "doctor", "editor_1", false⟩ ⟨[]⟩ =
      (⟨true, some "doctor", "editor_1", false⟩, ⟨[]⟩, .refUnavailableInfo) ∧
    mapping_editor_section (.ok ⟨["h1", "h2"], [[some "a", some "b"]]⟩) true
        [[some "x"]] "2024-01-02" none none none
        ⟨true, some "doctor", "editor_1", false⟩ ⟨[]⟩ =
      (⟨true, some "doctor", "editor_1", false⟩, ⟨[]⟩, .tooFewColsErr) := by
  refine ⟨(C10_reference_guards (.error "read failed") true [[some "x"]] "2024-01-02"
      none none none ⟨true, some "doctor", "editor_1", false⟩ ⟨[]⟩).1 (by decide),
    (C10_reference_guards (.ok ⟨["h1", "h2"], [[some "a", some "b"]]⟩) true
      [[some "x"]] "2024-01-02" none none none
      ⟨true, some "doctor", "editor_1", false⟩ ⟨[]⟩).2
      ⟨["h1", "h2"], [["a", "b"]]⟩ (by decide) (by decide)⟩

/-! ### Claim C6 -/

theorem appendLoop_singleFault (e name : String) :
    ∀ (rows : List (List String)) (k i : Nat) (sp : Spreadsheet), k < rows.length →
      ∃ sp1, appendLoop (singleFault (i + k) e) i sp name rows = .error (e, sp1) := by
  intro rows
  induction rows with
  | nil =>
    intro k i sp hk
    simp at hk
  | cons r rest ih =>
    intro k i sp hk
    match k with
    | 0 =>
      refine ⟨sp, ?_⟩
      unfold appendLoop singleFault
      simp
    | (k' + 1) =>
      have harith : i + (k' + 1) = (i + 1) + k' := by omega
      rw [harith]
      have hfi : singleFault ((i + 1) + k') e i = none := by
        unfold singleFault
        rw [if_neg (by omega)]
      have hk2 : k' < rest.length := by
        simp only [List.length_cons] at hk
        omega
      obtain ⟨sp1, h1⟩ := ih k' (i + 1) (wsAppendRow sp name r) hk2
      refine ⟨sp1, ?_⟩
      unfold appendLoop
      rw [hfi]
      exact h1

/-- Claim C6: every remote fault raised during a submit action — the
entry locator, any single entry append call, or the mapping locator,
clear, or bulk update — is caught at the point of the user action and
surfaced as a user-visible message carrying the underlying fault text,
with the whole session state (logged-in flag, role, editor keys)
returned unchanged; the faulting operation is attempted once, with no
automatic retry. -/
theorem C6_remote_failure_surfaced
    (e dateStr ts : String) (faults : Nat → Option String) (k : Nat)
    (edited : List PRow) (sess : Session) (sp : Spreadsheet)
    (raw : Except String RawDF) (df : DF) :
    new_entry_submit (some e) faults dateStr ts edited sess sp =
      (sess, sp, .errMsg ("Error: " ++ e)) ∧
    (k < (dropnaAll edited).length →
      ∃ sp1, new_entry_submit none (singleFault k e) dateStr ts edited sess sp =
        (sess, sp1, .errMsg ("Error: " ++ e))) ∧
    (load_reference_sheet raw = some df → ¬ df.header.length < 3 →
      sess.mapping_clear_after_submit = false →
      (mapping_editor_section raw true edited dateStr (some e) none none sess sp =
        (sess, sp, .saveErr ("Error saving mapping to Google Sheets: " ++ e)) ∧
      (∃ sp2, mapping_editor_section raw true edited dateStr none (some e) none sess sp =
        (sess, sp2, .saveErr ("Error saving mapping to Google Sheets: " ++ e))) ∧
      (∃ sp3, mapping_editor_section raw true edited dateStr none none (some e) sess sp =
        (sess, sp3, .saveErr ("Error saving mapping to Google Sheets: " ++ e))))) := by
  refine ⟨rfl, ?_, ?_⟩
  · intro hk
    have hne : ¬ (dropnaAll edited).isEmpty = true := by
      rw [List.isEmpty_iff]
      intro h0
      rw [h0] at hk
      simp at hk
    have hk2 : k < ((dropnaAll edited).map fillRow).length := by
      rw [List.length_map]
      exact hk
    obtain ⟨sp1, h1⟩ := appendLoop_singleFault e (get_today_sheet sp dateStr).1
      ((dropnaAll edited).map fillRow) k 0 (get_today_sheet sp dateStr).2 hk2
    rw [Nat.zero_add] at h1
    refine ⟨sp1, ?_⟩
    unfold new_entry_submit append_rows_exc
    rw [if_neg hne, h1]
  · intro hload hcols hflag
    unfold mapping_editor_section mappingSubmitTry
    rw [hload]
    simp only [if_neg hcols, hflag, Bool.false_eq_true, if_false, if_true]
    exact ⟨trivial, ⟨_, rfl⟩, ⟨_, rfl⟩⟩

/-- Witness for C6 at concrete faults: each of the five fault points
produces the surfaced message and an unchanged session. -/
theorem C6_witness :
    new_entry_submit (some "boom") (fun _ => none) "2024-01-02" "t1" [[some "a"]]
        ⟨true, some "doctor", "editor_1", false⟩ ⟨[]⟩ =
      (⟨true, some "doctor", "editor_1", false⟩, ⟨[]⟩, .errMsg ("Error: " ++ "boom")) ∧
    (∃ sp1, new_entry_submit none (singleFault 0 "boom") "2024-01-02" "t1" [[some "a"]]
        ⟨true, some "doctor", "editor_1", false⟩ ⟨[]⟩ =
      (⟨true, some "doctor", "editor_1", false⟩, sp1, .errMsg ("Error: " ++ "boom"))) ∧
    (mapping_editor_section (.ok ⟨["h1", "h2", "h3"], [[some "x", some "y", some "z"]]⟩)
        true [[some "a"]] "2024-01-02" (some "boom") none none
        ⟨true, some "doctor", "editor_1", false⟩ ⟨[]⟩ =
      (⟨true, some "doctor", "editor_1", false⟩, ⟨[]⟩,
        .saveErr ("Error saving mapping to Google Sheets: " ++ "boom")) ∧
    (∃ sp2, mapping_editor_section (.ok ⟨["h1", "h2", "h3"], [[some "x", some "y", some "z"]]⟩)
        true [[some "a"]] "2024-01-02" none (some "boom") none
        ⟨true, some "doctor", "editor_1", false⟩ ⟨[]⟩ =
      (⟨true, some "doctor", "editor_1", false⟩, sp2,
        .saveErr ("Error saving mapping to Google Sheets: " ++ "boom"))) ∧
    (∃ sp3, mapping_editor_section (.ok ⟨["h1", "h2", "h3"], [[some "x", some "y", some "z"]]⟩)
        true [[some "a"]] "2024-01-02" none none (some "boom")
        ⟨true, some "doctor", "editor_1", false⟩ ⟨[]⟩ =
      (⟨true, some "doctor", "editor_1", false⟩, sp3,
        .saveErr ("Error saving mapping to Google Sheets: " ++ "boom")))) := by
  have h := C6_remote_failure_surfaced "boom" "2024-01-02" "t1" (fun _ => none) 0
    [[some "a"]] ⟨true, some "doctor", "editor_1", false⟩ ⟨[]⟩
    (.ok ⟨["h1", "h2", "h3"], [[some "x", some "y", some "z"]]⟩)
    ⟨["h1", "h2", "h3"], [["x", "y", "z"]]⟩
  exact ⟨h.1, h.2.1 (by decide), h.2.2 (by decide) (by decide) rfl⟩

/-! ### Claim C1 -/

theorem getD_mem (l : List α) (i : Nat) (d : α) (h : i < l.length) : l.getD i d ∈ l := by
  rw [List.getD_eq_getElem?_getD, List.getElem?_eq_getElem h]
  exact List.getElem_mem h

theorem mapping_sheet_name (sp : Spreadsheet) (d : String) :
    (get_mapping_sheet_for_today sp d).1 = "mapping_" ++ d := by
  unfold get_mapping_sheet_for_today
  cases findWs sp ("mapping_" ++ d) <;> rfl

theorem mapping_sheet_exists (sp : Spreadsheet) (d : String) :
    ∃ w, findWs (get_mapping_sheet_for_today sp d).2 ("mapping_" ++ d) = some w := by
  unfold get_mapping_sheet_for_today
  cases hw : findWs sp ("mapping_" ++ d) with
  | some w => exact ⟨w, hw⟩
  | none => exact ⟨_, findWs_addWorksheet_self sp _ 2000 50 hw⟩

/-- Claim C1 counterexample: when the reference template's frozen cell
(0,0) holds the literal string `nan`, the mapping save persists `""`
there, not the reference's value: the per-cell cleaning runs after the
frozen-cell enforcement, so the persisted frozen cell differs from the
template.  The full pipeline on a concrete submit shows the written
sheet. -/
theorem C1_counterexample :
    ((mapping_saved_rows [["nan", "a", ""], ["x", "y", ""]]
        [["q", "w", "e"], ["r", "t", "u"]]).getD 0 []).getD 0 "" ≠
      (([["nan", "a", ""], ["x", "y", ""]] : List (List String)).getD 0 []).getD 0 "" ∧
    load_reference_sheet
        (.ok ⟨["h1", "h2", "h3"], [[some "nan", some "a", none], [some "x", some "y", none]]⟩) =
      some ⟨["h1", "h2", "h3"], [["nan", "a", ""], ["x", "y", ""]]⟩ ∧
    wsData (mapping_editor_section
        (.ok ⟨["h1", "h2", "h3"], [[some "nan", some "a", none], [some "x", some "y", none]]⟩)
        true [[some "q", some "w", some "e"], [some "r", some "t", some "u"]]
        "2024-01-02" none none none ⟨true, some "admin", "editor_1", false⟩ ⟨[]⟩).2.1
        ("mapping_" ++ "2024-01-02") =
      some [["h1", "h2", "h3"], ["", "a", ""], ["x", "y", "u"]] := by
  refine ⟨by decide, by decide, by decide⟩

/-- Claim C1 (amended): a mapping save persists, below the header, a
grid whose frozen cells (all of row 0, and columns 0-1 of every row)
equal the reference template's values at those positions passed
through the save's `nan` cleaning — i.e. they equal the reference
value whenever that value is not the literal string `nan`, and are
independent of the edited grid; the payload is written as a whole to
the day's mapping sheet (overwrite, not rejection). -/
theorem C1_frozen_cells_enforced (raw : Except String RawDF) (ref : DF)
    (edited : List PRow) (sess : Session) (sp : Spreadsheet) (dateStr : String)
    (i j : Nat)
    (hload : load_reference_sheet raw = some ref)
    (hcols : 3 ≤ ref.header.length)
    (hflag : sess.mapping_clear_after_submit = false)
    (hlen : edited.length = ref.rows.length)
    (hrect : ∀ r ∈ ref.rows, r.length = ref.header.length)
    (herect : ∀ r ∈ edited, r.length = ref.header.length)
    (hi : i < ref.rows.length) (hj : j < ref.header.length)
    (hfrozen : i = 0 ∨ j < 2) :
    wsData (mapping_editor_section raw true edited dateStr none none none sess sp).2.1
        ("mapping_" ++ dateStr) = some (mapping_save_payload ref edited) ∧
    ((mapping_saved_rows ref.rows (edited.map fillRow)).getD i []).getD j "" =
      cleanCell ((ref.rows.getD i []).getD j "") := by
  constructor
  · unfold mapping_editor_section mappingSubmitTry
    rw [hload]
    have hcols2 : ¬ ref.header.length < 3 := by omega
    simp only [if_neg hcols2, hflag, Bool.false_eq_true, if_false, if_true]
    obtain ⟨w0, hw0⟩ := mapping_sheet_exists sp dateStr
    have hclear := findWs_wsClear _ _ _ hw0
    have hupd := wsData_wsUpdate_of_found _ ("mapping_" ++ dateStr)
      (mapping_save_payload ref edited) _ hclear
    rw [mapping_sheet_name sp dateStr]
    exact hupd
  · have hlen2 : (edited.map fillRow).length = ref.rows.length := by
      rw [List.length_map]
      exact hlen
    have hbslen : ((edited.map fillRow).set 0 (ref.rows.getD 0 [])).length =
        ref.rows.length := by
      rw [List.length_set]
      exact hlen2
    have hreflen : (ref.rows.getD i []).length = ref.header.length :=
      hrect _ (getD_mem ref.rows i [] hi)
    have hbsi : (((edited.map fillRow).set 0 (ref.rows.getD 0 [])).getD i []).length =
        ref.header.length := by
      by_cases hi0 : i = 0
      · subst hi0
        rw [getD_set_self _ 0 _ _ (by omega)]
        exact hreflen
      · rw [getD_set_ne _ 0 i _ _ (fun hc => hi0 hc.symm)]
        rw [getD_map_lt fillRow edited i [] [] (by omega)]
        unfold fillRow
        rw [List.length_map]
        exact herect _ (getD_mem edited i [] (by omega))
    unfold mapping_saved_rows enforce_frozen
    have hzlen : i < (List.zipWith setFrozenCols ref.rows
        ((edited.map fillRow).set 0 (ref.rows.getD 0 []))).length := by
      rw [List.length_zipWith, hbslen]
      omega
    rw [getD_map_lt _ _ i [] [] hzlen]
    rw [getD_zipWith_lt setFrozenCols _ _ i [] [] [] hi (by omega)]
    have hfc := getD_setFrozenCols (ref.rows.getD i [])
      (((edited.map fillRow).set 0 (ref.rows.getD 0 [])).getD i []) j (by omega)
    have hrowlen : (setFrozenCols (ref.rows.getD i [])
        (((edited.map fillRow).set 0 (ref.rows.getD 0 [])).getD i [])).length =
        ref.header.length := by
      rw [length_setFrozenCols]
      exact hbsi
    rw [getD_map_lt cleanCell _ j "" "" (by omega), hfc]
    by_cases hj2 : j < 2
    · rw [if_pos hj2]
    · rw [if_neg hj2]
      have hi0 : i = 0 := by
        cases hfrozen with
        | inl h => exact h
        | inr h => omega
      subst hi0
      rw [getD_set_self _ 0 _ _ (by omega)]

/-- Witness for C1 (amended): on a concrete submit the day's mapping
sheet holds exactly the payload, and the frozen cell (1,0) of the
saved grid equals the cleaned reference value. -/
theorem C1_witness :
    wsData (mapping_editor_section
        (.ok ⟨["h1", "h2", "h3"], [[some "r00", some "r01", none], [some "r10", some "r11", none]]⟩)
        true [[some "q", some "w", some "e"], [some "r", some "t", some "u"]]
        "2024-01-02" none none none ⟨true, some "admin", "editor_1", false⟩ ⟨[]⟩).2.1
        ("mapping_" ++ "2024-01-02") =
      some (mapping_save_payload ⟨["h1", "h2", "h3"], [["r00", "r01", ""], ["r10", "r11", ""]]⟩
        [[some "q", some "w", some "e"], [some "r", some "t", some "u"]]) ∧
    ((mapping_saved_rows [["r00", "r01", ""], ["r10", "r11", ""]]
        ([[some "q", some "w", some "e"], [some "r", some "t", some "u"]].map fillRow)).getD 1 []).getD 0 "" =
      cleanCell (([["r00", "r01", ""], ["r10", "r11", ""]].getD 1 []).getD 0 "") :=
  C1_frozen_cells_enforced
    (.ok ⟨["h1", "h2", "h3"], [[some "r00", some "r01", none], [some "r10", some "r11", none]]⟩)
    ⟨["h1", "h2", "h3"], [["r00", "r01", ""], ["r10", "r11", ""]]⟩
    [[some "q", some "w", some "e"], [some "r", some "t", some "u"]]
    ⟨true, some "admin", "editor_1", false⟩ ⟨[]⟩ "2024-01-02" 1 0
    (by decide) (by decide) rfl (by decide) (by decide) (by decide)
    (by decide) (by decide) (by decide)

/-! ### Claim C5 -/

theorem dateTriples_parse (sp : Spreadsheet) (t : DateT × String × Worksheet)
    (ht : t ∈ List.insertionSort descDate (dateTriples sp)) :
    parseDate t.2.1 = some t.1 := by
  have hmem : t ∈ dateTriples sp := (List.mem_insertionSort descDate).mp ht
  unfold dateTriples at hmem
  obtain ⟨ws, _, heq⟩ := List.mem_filterMap.mp hmem
  unfold dateTripleOf at heq
  by_cases hs : startsWithData ws.title
  · rw [if_pos hs] at heq
    cases h2 : parseDate (stripDataTag ws.title) with
    | none => rw [h2] at heq; simp at heq
    | some d =>
      rw [h2] at heq
      have heq2 : (d, stripDataTag ws.title, ws) = t := Option.some.inj heq
      subst heq2
      simpa using h2
  · rw [if_neg hs] at heq
    simp at heq

/-- Claim C5: the history listing returns exactly the worksheets whose
title starts with the main-data tag and whose remainder parses as a
date (as a permutation, i.e. the same multiset), arranged so that the
parsed dates descend along the list; every listed entry's date string
parses; viewing a selected date with more than one stored row presents
the first row as header and the rest as data, and the history tab
returns the spreadsheet unchanged (read-only). -/
theorem C5_history_listing (sp : Spreadsheet) (rows : List (List String))
    (selected : String) :
    List.Perm (get_date_sheets sp) (sp.sheets.filterMap keepWs) ∧
    List.Pairwise (fun a b => parsedDescB a.1 b.1 = true) (get_date_sheets sp) ∧
    (∀ x ∈ get_date_sheets sp, (parseDate x.1).isSome = true) ∧
    (1 < rows.length → history_view rows = some (rows.headD [], rows.tail)) ∧
    (history_tab sp selected).2 = sp := by
  have hparse := dateTriples_parse sp
  refine ⟨?_, ?_, ?_, ?_, rfl⟩
  · have step1 : List.Perm (List.insertionSort descDate (dateTriples sp)) (dateTriples sp) :=
      List.perm_insertionSort descDate (dateTriples sp)
    have step2 := step1.map (fun x : DateT × String × Worksheet => (x.2.1, x.2.2))
    have step3 : (dateTriples sp).map (fun x : DateT × String × Worksheet => (x.2.1, x.2.2)) =
        sp.sheets.filterMap keepWs := by
      unfold dateTriples
      rw [List.map_filterMap]
      apply List.filterMap_congr
      intro ws _
      unfold dateTripleOf keepWs
      by_cases hs : startsWithData ws.title
      · rw [if_pos hs, if_pos hs]
        cases parseDate (stripDataTag ws.title) <;> rfl
      · rw [if_neg hs, if_neg hs]
        rfl
    rw [step3] at step2
    exact step2
  · have hsorted : List.Pairwise descDate (List.insertionSort descDate (dateTriples sp)) :=
      List.sorted_insertionSort descDate (dateTriples sp)
    have himp : List.Pairwise
        (fun t u : DateT × String × Worksheet => parsedDescB t.2.1 u.2.1 = true)
        (List.insertionSort descDate (dateTriples sp)) := by
      refine hsorted.imp_of_mem ?_
      intro a b ha hb hr
      unfold parsedDescB
      rw [hparse a ha, hparse b hb]
      exact decide_eq_true hr
    unfold get_date_sheets
    rw [List.pairwise_map]
    exact himp
  · intro x hx
    unfold get_date_sheets at hx
    obtain ⟨t, ht, hxt⟩ := List.mem_map.mp hx
    rw [hxt.symm]
    rw [hparse t ht]
    rfl
  · intro hlen
    unfold history_view
    have hc : (rows.isEmpty || decide (rows.length ≤ 1)) = false := by
      rcases rows with _ | ⟨r, rest⟩
      · simp at hlen
      · simp only [List.isEmpty_cons, Bool.false_or, decide_eq_false_iff_not]
        omega
    rw [hc]
    simp

/-- Witness for C5 on a concrete spreadsheet holding two dated data
sheets, a foreign sheet, and a data sheet with an unparseable suffix. -/
theorem C5_witness :
    List.Perm (get_date_sheets ⟨[⟨"data_2023-05-06", 2000, 4, []⟩, ⟨"other", 10, 10, []⟩,
        ⟨"data_2024-01-02", 2000, 4, []⟩, ⟨"data_xx", 2000, 4, []⟩]⟩)
      ((⟨[⟨"data_2023-05-06", 2000, 4, []⟩, ⟨"other", 10, 10, []⟩,
        ⟨"data_2024-01-02", 2000, 4, []⟩, ⟨"data_xx", 2000, 4, []⟩]⟩ : Spreadsheet).sheets.filterMap keepWs) ∧
    List.Pairwise (fun a b => parsedDescB a.1 b.1 = true)
      (get_date_sheets ⟨[⟨"data_2023-05-06", 2000, 4, []⟩, ⟨"other", 10, 10, []⟩,
        ⟨"data_2024-01-02", 2000, 4, []⟩, ⟨"data_xx", 2000, 4, []⟩]⟩) ∧
    history_view [["h"], ["1"]] = some ([["h"], ["1"]].headD [], [["h"], ["1"]].tail) ∧
    (history_tab ⟨[⟨"data_2023-05-06", 2000, 4, []⟩, ⟨"other", 10, 10, []⟩,
        ⟨"data_2024-01-02", 2000, 4, []⟩, ⟨"data_xx", 2000, 4, []⟩]⟩ "2024-01-02").2 =
      ⟨[⟨"data_2023-05-06", 2000, 4, []⟩, ⟨"other", 10, 10, []⟩,
        ⟨"data_2024-01-02", 2000, 4, []⟩, ⟨"data_xx", 2000, 4, []⟩]⟩ := by
  have h := C5_history_listing ⟨[⟨"data_2023-05-06", 2000, 4, []⟩, ⟨"other", 10, 10, []⟩,
    ⟨"data_2024-01-02", 2000, 4, []⟩, ⟨"data_xx", 2000, 4, []⟩]⟩ [["h"], ["1"]] "2024-01-02"
  exact ⟨h.1, h.2.1, h.2.2.2.1 (by decide), h.2.2.2.2⟩

/-- Witness for the parseability conjunct of C5 at a listed entry. -/
theorem C5_parse_witness :
    (parseDate ("2024-01-02", (⟨"data_2024-01-02", 2000, 4, []⟩ : Worksheet)).1).isSome = true :=
  (C5_history_listing ⟨[⟨"data_2023-05-06", 2000, 4, []⟩, ⟨"other", 10, 10, []⟩,
      ⟨"data_2024-01-02", 2000, 4, []⟩, ⟨"data_xx", 2000, 4, []⟩]⟩ [["h"], ["1"]]
    "2024-01-02").2.2.1 ("2024-01-02", ⟨"data_2024-01-02", 2000, 4, []⟩) (by decide)

end DoctorInput
